import Mathlib

/-!
Shallow embedding of the beam load calculator
(`src/components/beam-load-calculator.tsx`), covering the two computation
functions `calculateResults` and `calculateDiagrams` of the
`BeamLoadCalculatorComponent`.

Modelling conventions:
* JavaScript numbers are modelled by `ℚ`; all arithmetic appearing in the
  embedded code paths is exact on the cited inputs, so the rational model
  agrees with IEEE doubles there except where a division by zero occurs.
* Divisions that can hit a zero denominator in JavaScript (producing
  `NaN` or `±Infinity`) are modelled by `jsDivQ`, returning a `JSNum`
  (a rational, an infinity, or NaN), with IEEE/JS semantics.
* `Number(x.toFixed(n))` is modelled by `roundTo n` (round to `n` decimal
  places, ties away from zero, as specified for `toFixed`); on `NaN` and
  `±Infinity` the JS round-trip is the identity, modelled by `jsRound`.
* The component's reactive state cells are gathered into one immutable
  record `BeamInputs`; `yieldStrength` is the resolved
  `materialProps.yieldStrength` (a standard material's constant, or the
  custom override).
-/

namespace BeamCalc

/-- Result of a JavaScript floating-point operation: a finite value
(modelled exactly as a rational), an infinity, or NaN. -/
inductive JSNum where
  | fin : ℚ → JSNum
  | posInf : JSNum
  | negInf : JSNum
  | nan : JSNum
deriving DecidableEq

/-- JavaScript division `a / b` of finite numbers: division by zero yields
`NaN` for a zero numerator and a signed infinity otherwise (IEEE 754 /
ECMA-262 semantics, ignoring the sign of zero). -/
def jsDivQ (a b : ℚ) : JSNum :=
  if b = 0 then
    if a = 0 then JSNum.nan else if 0 < a then JSNum.posInf else JSNum.negInf
  else JSNum.fin (a / b)

/-- Rounding to `n` decimal places with ties away from zero, the rounding
mode of JavaScript's `Number.prototype.toFixed`; models
`Number(x.toFixed(n))` for finite values. -/
def roundTo (n : ℕ) (q : ℚ) : ℚ :=
  let p : ℚ := (10 : ℚ) ^ n
  if 0 ≤ q then ((⌊q * p + 1 / 2⌋ : ℤ) : ℚ) / p
  else -(((⌊-q * p + 1 / 2⌋ : ℤ) : ℚ) / p)

/-- Rounding lifted to `JSNum`: `toFixed` followed by `Number(...)` maps
`NaN` to `NaN` and `±Infinity` to itself. -/
def jsRound (n : ℕ) : JSNum → JSNum
  | JSNum.fin q => JSNum.fin (roundTo n q)
  | x => x

/-- The exact rational value of the IEEE-754 double `Math.PI`. -/
def mathPI : ℚ := 884279719003555 / 281474976710656

/-- Inputs of one calculation run: the component's state cells
(`beamType`, `beamCrossSection`, `beamLength`, ..., `beamDensity`) plus
the resolved material yield strength used on line 326. Lengths and
positions are in millimetres, the load magnitude in newtons, the density
in kg/m³, the yield strength in MPa, exactly as in the component. -/
structure BeamInputs where
  beamType : String
  beamCrossSection : String
  beamLength : ℚ
  leftSupport : ℚ
  rightSupport : ℚ
  loadType : String
  loadMagnitude : ℚ
  loadStartPosition : ℚ
  loadEndPosition : ℚ
  width : ℚ
  height : ℚ
  flangeWidth : ℚ
  flangeThickness : ℚ
  webThickness : ℚ
  diameter : ℚ
  beamDensity : ℚ
  yieldStrength : ℚ

/-- Beam volume switch of `calculateResults` (lines 244-260): dimensions
are first converted from mm to m; an unrecognized `beamCrossSection`
falls through to the `default` branch, which repeats the Rectangular
formula. -/
def beamVolume (inp : BeamInputs) : ℚ :=
  let beamLengthM := inp.beamLength / 1000
  let widthM := inp.width / 1000
  let heightM := inp.height / 1000
  let flangeWidthM := inp.flangeWidth / 1000
  let flangeThicknessM := inp.flangeThickness / 1000
  let webThicknessM := inp.webThickness / 1000
  let diameterM := inp.diameter / 1000
  if inp.beamCrossSection = "Rectangular" then
    widthM * heightM * beamLengthM
  else if inp.beamCrossSection = "I Beam" then
    (2 * flangeWidthM * flangeThicknessM
      + (heightM - 2 * flangeThicknessM) * webThicknessM) * beamLengthM
  else if inp.beamCrossSection = "C Channel" then
    (2 * flangeWidthM * flangeThicknessM
      + (heightM - 2 * flangeThicknessM) * webThicknessM) * beamLengthM
  else if inp.beamCrossSection = "Circular" then
    mathPI * (diameterM / 2) ^ 2 * beamLengthM
  else
    widthM * heightM * beamLengthM

/-- Beam self-weight in newtons, line 261:
`beamVolume * beamDensity * 9.81`. -/
def beamWeightN (inp : BeamInputs) : ℚ :=
  beamVolume inp * inp.beamDensity * (981 / 100)

/-- Numerator of the centre-of-gravity computation, lines 265-276:
the beam's moment about the left end plus the load's moment. -/
def totalMoment (inp : BeamInputs) : ℚ :=
  let beamLengthM := inp.beamLength / 1000
  let loadStartPositionM := inp.loadStartPosition / 1000
  let loadEndPositionM := inp.loadEndPosition / 1000
  let base := beamWeightN inp * (beamLengthM / 2)
  if inp.loadType = "Point Load" then
    base + inp.loadMagnitude * loadStartPositionM
  else if inp.loadType = "Uniform Load" then
    let loadLength := loadEndPositionM - loadStartPositionM
    let totalLoad := inp.loadMagnitude * loadLength
    base + totalLoad * (loadStartPositionM + loadLength / 2)
  else base

/-- Denominator of the centre-of-gravity computation, lines 266-276:
beam self-weight plus the load's total force. -/
def totalForce (inp : BeamInputs) : ℚ :=
  if inp.loadType = "Point Load" then
    beamWeightN inp + inp.loadMagnitude
  else if inp.loadType = "Uniform Load" then
    let loadLength := inp.loadEndPosition / 1000 - inp.loadStartPosition / 1000
    beamWeightN inp + inp.loadMagnitude * loadLength
  else beamWeightN inp

/-- Section properties computed by the switch on lines 287-316 of
`calculateResults`: cross-section area, second moment of area, and
section modulus (SI units, metres). The `default` branch repeats the
Rectangular formulas. -/
structure SectionProps where
  area : ℚ
  momentOfInertia : ℚ
  sectionModulus : ℚ
deriving DecidableEq

/-- Embedding of the section-property switch (lines 287-316). -/
def sectionProps (inp : BeamInputs) : SectionProps :=
  let widthM := inp.width / 1000
  let heightM := inp.height / 1000
  let flangeWidthM := inp.flangeWidth / 1000
  let flangeThicknessM := inp.flangeThickness / 1000
  let webThicknessM := inp.webThickness / 1000
  let diameterM := inp.diameter / 1000
  if inp.beamCrossSection = "Rectangular" then
    let momentOfInertia := widthM * heightM ^ 3 / 12
    ⟨widthM * heightM, momentOfInertia, momentOfInertia / (heightM / 2)⟩
  else if inp.beamCrossSection = "I Beam" then
    let I_flange := flangeWidthM * flangeThicknessM ^ 3 / 6
      + 2 * flangeWidthM * flangeThicknessM * ((heightM - flangeThicknessM) / 2) ^ 2
    let I_web := webThicknessM * (heightM - 2 * flangeThicknessM) ^ 3 / 12
    let momentOfInertia := 2 * I_flange + I_web
    ⟨2 * flangeWidthM * flangeThicknessM + (heightM - 2 * flangeThicknessM) * webThicknessM,
      momentOfInertia, momentOfInertia / (heightM / 2)⟩
  else if inp.beamCrossSection = "C Channel" then
    let I_flange_c := flangeWidthM * flangeThicknessM ^ 3 / 12
      + flangeWidthM * flangeThicknessM * ((heightM - flangeThicknessM) / 2) ^ 2
    let I_web_c := webThicknessM * (heightM - 2 * flangeThicknessM) ^ 3 / 12
    let momentOfInertia := 2 * I_flange_c + I_web_c
    ⟨2 * flangeWidthM * flangeThicknessM + (heightM - 2 * flangeThicknessM) * webThicknessM,
      momentOfInertia, momentOfInertia / (heightM / 2)⟩
  else if inp.beamCrossSection = "Circular" then
    let momentOfInertia := mathPI * diameterM ^ 4 / 64
    ⟨mathPI * (diameterM / 2) ^ 2, momentOfInertia, momentOfInertia / (diameterM / 2)⟩
  else
    let momentOfInertia := widthM * heightM ^ 3 / 12
    ⟨widthM * heightM, momentOfInertia, momentOfInertia / (heightM / 2)⟩

/-- The running-maximum shear accumulator of `calculateResults`:
declared `let maxShearForce = 0` on line 227 and never reassigned
anywhere in the function body. -/
def maxShearForce0 : ℚ := 0

/-- The running-maximum moment accumulator of `calculateResults`:
declared `let maxBendingMoment = 0` on line 228 and never reassigned
anywhere in the function body. -/
def maxBendingMoment0 : ℚ := 0

/-- The record stored by `setResults` on lines 321-330. -/
structure ResultSet where
  maxShearForce : ℚ
  maxBendingMoment : ℚ
  maxNormalStress : ℚ
  maxShearStress : ℚ
  safetyFactor : JSNum
  centerOfGravity : JSNum
  momentOfInertia : ℚ
  sectionModulus : ℚ
deriving DecidableEq

/-- Embedding of `calculateResults` (lines 224-331), restricted to the
`ResultSet` it stores. `maxNormalStress = (maxBendingMoment / sectionModulus) / 1e6`
and `maxShearStress = (1.5 * maxShearForce / area) / 1e6` are modelled
with rational division; this agrees with JS on every input whose area and
section modulus are nonzero (theorems carry that hypothesis), since their
numerators are the never-updated zero accumulators. The safety-factor and
centre-of-gravity divisions can genuinely divide zero by zero, so they use
`jsDivQ`. -/
def calculateResults (inp : BeamInputs) : ResultSet :=
  let sp := sectionProps inp
  let maxNormalStress := maxBendingMoment0 / sp.sectionModulus / 1000000
  let maxShearStress := 3 / 2 * maxShearForce0 / sp.area / 1000000
  { maxShearForce := roundTo 2 maxShearForce0
    maxBendingMoment := roundTo 2 maxBendingMoment0
    maxNormalStress := roundTo 2 maxNormalStress
    maxShearStress := roundTo 2 maxShearStress
    safetyFactor := jsRound 2 (jsDivQ inp.yieldStrength maxNormalStress)
    centerOfGravity := jsRound 3 (jsDivQ (totalMoment inp) (totalForce inp))
    momentOfInertia := roundTo 6 sp.momentOfInertia
    sectionModulus := roundTo 6 sp.sectionModulus }

/-- Reaction force `R1` computed inside the sampling loop of
`calculateDiagrams` (lines 344-366); it does not depend on the sample
index. Positions here stay in millimetres, as in the source. Rational
division is used; the Simple Beam branches divide by
`rightSupport - leftSupport`, which JS semantics requires to be nonzero
(see `simpleBeamPointR1JS` for the degenerate case). -/
def R1 (inp : BeamInputs) : ℚ :=
  if inp.beamType = "Simple Beam" then
    if inp.loadType = "Point Load" then
      inp.loadMagnitude * (inp.rightSupport - inp.loadStartPosition)
        / (inp.rightSupport - inp.leftSupport)
    else if inp.loadType = "Uniform Load" then
      let loadLength := inp.loadEndPosition - inp.loadStartPosition
      let totalLoad := inp.loadMagnitude * loadLength
      let loadCentroid := (inp.loadStartPosition + inp.loadEndPosition) / 2
      totalLoad * (inp.rightSupport - loadCentroid)
        / (inp.rightSupport - inp.leftSupport)
    else 0
  else if inp.beamType = "Cantilever Beam" then
    if inp.loadType = "Point Load" then
      inp.loadMagnitude
    else if inp.loadType = "Uniform Load" then
      inp.loadMagnitude * (inp.loadEndPosition - inp.loadStartPosition)
    else 0
  else 0

/-- Reaction force `R2` of `calculateDiagrams` (lines 344-366); stays `0`
in the Cantilever branches. -/
def R2 (inp : BeamInputs) : ℚ :=
  if inp.beamType = "Simple Beam" then
    if inp.loadType = "Point Load" then
      inp.loadMagnitude * (inp.loadStartPosition - inp.leftSupport)
        / (inp.rightSupport - inp.leftSupport)
    else if inp.loadType = "Uniform Load" then
      let loadLength := inp.loadEndPosition - inp.loadStartPosition
      let totalLoad := inp.loadMagnitude * loadLength
      let loadCentroid := (inp.loadStartPosition + inp.loadEndPosition) / 2
      totalLoad * (loadCentroid - inp.leftSupport)
        / (inp.rightSupport - inp.leftSupport)
    else 0
  else 0

/-- R1 of the Simple Beam / Point Load branch (line 350) with JS division
semantics, used to settle what the code produces when
`rightSupport == leftSupport`. -/
def simpleBeamPointR1JS (inp : BeamInputs) : JSNum :=
  jsDivQ (inp.loadMagnitude * (inp.rightSupport - inp.loadStartPosition))
    (inp.rightSupport - inp.leftSupport)

/-- R2 of the Simple Beam / Point Load branch (line 351) with JS division
semantics. -/
def simpleBeamPointR2JS (inp : BeamInputs) : JSNum :=
  jsDivQ (inp.loadMagnitude * (inp.loadStartPosition - inp.leftSupport))
    (inp.rightSupport - inp.leftSupport)

/-- Shear force at sample position `x` (millimetres), lines 369-413 of
`calculateDiagrams`: the imperative `shear += ... ; shear -= ...`
accumulation written as a sum of conditional terms. -/
def shear (inp : BeamInputs) (x : ℚ) : ℚ :=
  if inp.beamType = "Simple Beam" then
    (if inp.leftSupport ≤ x then R1 inp else 0)
      - (if inp.rightSupport ≤ x then R2 inp else 0)
      - (if inp.loadType = "Point Load" ∧ inp.loadStartPosition ≤ x then
          inp.loadMagnitude
        else if inp.loadType = "Uniform Load" ∧ inp.loadStartPosition ≤ x then
          inp.loadMagnitude
            * min (x - inp.loadStartPosition) (inp.loadEndPosition - inp.loadStartPosition)
        else 0)
  else if inp.beamType = "Cantilever Beam" then
    if inp.loadType = "Point Load" then
      if x ≤ inp.loadStartPosition then -inp.loadMagnitude else 0
    else if inp.loadType = "Uniform Load" then
      let loadLength := inp.loadEndPosition - inp.loadStartPosition
      if x ≤ inp.loadStartPosition then -(inp.loadMagnitude * loadLength)
      else if inp.loadStartPosition < x ∧ x < inp.loadEndPosition then
        -(inp.loadMagnitude * (inp.loadEndPosition - x))
      else 0
    else 0
  else 0

/-- Bending moment at sample position `x` (millimetres), lines 369-413 of
`calculateDiagrams`. In the Simple Beam branch the term
`R1 * (x - leftSupport)` is unconditional, exactly as on line 380. -/
def moment (inp : BeamInputs) (x : ℚ) : ℚ :=
  if inp.beamType = "Simple Beam" then
    R1 inp * (x - inp.leftSupport)
      - (if inp.rightSupport < x then R2 inp * (x - inp.rightSupport) else 0)
      - (if inp.loadType = "Point Load" ∧ inp.loadStartPosition < x then
          inp.loadMagnitude * (x - inp.loadStartPosition)
        else if inp.loadType = "Uniform Load" ∧ inp.loadStartPosition < x then
          let loadedLength :=
            min (x - inp.loadStartPosition) (inp.loadEndPosition - inp.loadStartPosition)
          let loadCentroid := inp.loadStartPosition + loadedLength / 2
          inp.loadMagnitude * loadedLength * (x - loadCentroid)
        else 0)
  else if inp.beamType = "Cantilever Beam" then
    if inp.loadType = "Point Load" then
      if x ≤ inp.loadStartPosition then
        -(inp.loadMagnitude * (inp.beamLength - inp.loadStartPosition))
      else 0
    else if inp.loadType = "Uniform Load" then
      let loadLength := inp.loadEndPosition - inp.loadStartPosition
      if x ≤ inp.loadStartPosition then
        -(inp.loadMagnitude * loadLength
          * (inp.beamLength - (inp.loadStartPosition + inp.loadEndPosition) / 2))
      else if inp.loadStartPosition < x ∧ x < inp.loadEndPosition then
        -(inp.loadMagnitude * (inp.loadEndPosition - x) * (inp.loadEndPosition - x) / 2)
      else 0
    else 0
  else 0

/-- Sample spacing of `calculateDiagrams`, line 335:
`dx = beamLength / (numPoints - 1)` with `numPoints = 100`. -/
def dx (inp : BeamInputs) : ℚ := inp.beamLength / 99

/-- The unrounded sample positions `x = i * dx`, `i = 0, ..., 99`
(line 340), before the `toFixed(2)` applied at the push on line 415. -/
def positionsRaw (inp : BeamInputs) : List ℚ :=
  (List.range 100).map fun i : ℕ => (i : ℚ) * dx inp

/-- The shear-force series pushed on line 415: 100 samples
`(Number(x.toFixed(2)), Number(shear.toFixed(2)))`. -/
def shearForceData (inp : BeamInputs) : List (ℚ × ℚ) :=
  (List.range 100).map fun i : ℕ =>
    (roundTo 2 ((i : ℚ) * dx inp), roundTo 2 (shear inp ((i : ℚ) * dx inp)))

/-- The bending-moment series pushed on line 416: 100 samples
`(Number(x.toFixed(2)), Number(moment.toFixed(2)))`. -/
def bendingMomentData (inp : BeamInputs) : List (ℚ × ℚ) :=
  (List.range 100).map fun i : ℕ =>
    (roundTo 2 ((i : ℚ) * dx inp), roundTo 2 (moment inp ((i : ℚ) * dx inp)))

/-- Total applied load of the single load case, used to state equilibrium
properties: the full magnitude for a point load, magnitude times loaded
length for a uniform load. -/
def totalAppliedLoad (inp : BeamInputs) : ℚ :=
  if inp.loadType = "Point Load" then inp.loadMagnitude
  else if inp.loadType = "Uniform Load" then
    inp.loadMagnitude * (inp.loadEndPosition - inp.loadStartPosition)
  else 0

/-- The I-Beam moment of inertia exactly as the spec claim words it:
`2*[bf*tf^3/6 + bf*tf*((h-tf)/2)^2] + tw*(h-2*tf)^3/12` (dimensions in
metres). Stated from the spec for comparison against `sectionProps`. -/
def specIBeamMomentOfInertia (bf tf tw h : ℚ) : ℚ :=
  2 * (bf * tf ^ 3 / 6 + bf * tf * ((h - tf) / 2) ^ 2) + tw * (h - 2 * tf) ^ 3 / 12

/-- The component's initial state values, used as a base point for
concrete instances. -/
def baseInputs : BeamInputs where
  beamType := "Simple Beam"
  beamCrossSection := "Rectangular"
  beamLength := 1000
  leftSupport := 0
  rightSupport := 1000
  loadType := "Point Load"
  loadMagnitude := 1000
  loadStartPosition := 500
  loadEndPosition := 500
  width := 100
  height := 200
  flangeWidth := 100
  flangeThickness := 10
  webThickness := 6
  diameter := 100
  beamDensity := 7850
  yieldStrength := 250

/-- Cantilever with the point load at the free end
(`loadStartPosition = beamLength = 1000`). -/
def exC4 : BeamInputs :=
  { baseInputs with beamType := "Cantilever Beam", loadStartPosition := 1000 }

/-- The I-Beam cross-section with the component's default dimensions. -/
def exC5 : BeamInputs := { baseInputs with beamCrossSection := "I Beam" }

/-- The Custom material with its default `yieldStrength = 0`. -/
def exC6 : BeamInputs := { baseInputs with yieldStrength := 0 }

/-- A positive beam length small enough that the `toFixed(2)` applied to
sample positions collapses neighbouring samples. -/
def exC7 : BeamInputs := { baseInputs with beamLength := 1 / 10 }

/-- Coincident supports, with the point load sitting on them. -/
def exC8 : BeamInputs :=
  { baseInputs with leftSupport := 500, rightSupport := 500 }

/-- An unrecognized cross-section shape string. -/
def exC9 : BeamInputs := { baseInputs with beamCrossSection := "Hexagon" }

/-- Zero density and a zero-magnitude point load: no force at all. -/
def exC10 : BeamInputs :=
  { baseInputs with beamDensity := 0, loadMagnitude := 0 }

/-- C1: the ResultSet's maxShearForce and maxBendingMoment are exactly 0
for every input (the accumulators are initialized to 0 on lines 227-228
and never updated in any branch), and consequently maxNormalStress and
maxShearStress are 0 as well; the area/section-modulus hypotheses keep
the rational model of the two stress divisions aligned with JS. -/
theorem C1_maxima_always_zero (inp : BeamInputs)
    (hZ : (sectionProps inp).sectionModulus ≠ 0)
    (hA : (sectionProps inp).area ≠ 0) :
    (calculateResults inp).maxShearForce = 0 ∧
    (calculateResults inp).maxBendingMoment = 0 ∧
    (calculateResults inp).maxNormalStress = 0 ∧
    (calculateResults inp).maxShearStress = 0 := by
  refine ⟨?_, ?_, ?_, ?_⟩ <;>
    norm_num [calculateResults, maxShearForce0, maxBendingMoment0, roundTo]

theorem C1_maxima_always_zero_witness :
    ((sectionProps baseInputs).sectionModulus ≠ 0 ∧
      (sectionProps baseInputs).area ≠ 0) ∧
    ((calculateResults baseInputs).maxShearForce = 0 ∧
      (calculateResults baseInputs).maxBendingMoment = 0 ∧
      (calculateResults baseInputs).maxNormalStress = 0 ∧
      (calculateResults baseInputs).maxShearStress = 0) :=
  ⟨⟨by norm_num [sectionProps, baseInputs], by norm_num [sectionProps, baseInputs]⟩,
    C1_maxima_always_zero baseInputs (by norm_num [sectionProps, baseInputs])
      (by norm_num [sectionProps, baseInputs])⟩

/-- C2: for a Simple Beam with a Point Load the reactions are
`R1 = P*(rightSupport - loadPos)/(rightSupport - leftSupport)` and
`R2 = P*(loadPos - leftSupport)/(rightSupport - leftSupport)` (lines
350-351), and for supports symmetric about midspan with the load at
midspan both reactions equal half the magnitude. -/
theorem C2_simple_beam_point_reactions (inp : BeamInputs)
    (hb : inp.beamType = "Simple Beam") (hl : inp.loadType = "Point Load") :
    (R1 inp = inp.loadMagnitude * (inp.rightSupport - inp.loadStartPosition)
        / (inp.rightSupport - inp.leftSupport) ∧
      R2 inp = inp.loadMagnitude * (inp.loadStartPosition - inp.leftSupport)
        / (inp.rightSupport - inp.leftSupport)) ∧
    (∀ L d : ℚ, 0 < d → inp.leftSupport = L / 2 - d → inp.rightSupport = L / 2 + d →
      inp.loadStartPosition = L / 2 →
      R1 inp = inp.loadMagnitude / 2 ∧ R2 inp = inp.loadMagnitude / 2) := by
  constructor
  · exact ⟨by simp [R1, hb, hl], by simp [R2, hb, hl]⟩
  · intro L d hd hL hR hP
    have h1 : L / 2 + d - L / 2 = d := by ring
    have h2 : L / 2 + d - (L / 2 - d) = 2 * d := by ring
    have h3 : L / 2 - (L / 2 - d) = d := by ring
    constructor
    · rw [show R1 inp = inp.loadMagnitude * (inp.rightSupport - inp.loadStartPosition)
          / (inp.rightSupport - inp.leftSupport) by simp [R1, hb, hl], hL, hR, hP, h1, h2,
        div_eq_div_iff (by positivity) (by norm_num)]
      ring
    · rw [show R2 inp = inp.loadMagnitude * (inp.loadStartPosition - inp.leftSupport)
          / (inp.rightSupport - inp.leftSupport) by simp [R2, hb, hl], hL, hR, hP, h3, h2,
        div_eq_div_iff (by positivity) (by norm_num)]
      ring

theorem C2_simple_beam_point_reactions_witness :
    (baseInputs.beamType = "Simple Beam" ∧ baseInputs.loadType = "Point Load") ∧
    ((R1 baseInputs = baseInputs.loadMagnitude
          * (baseInputs.rightSupport - baseInputs.loadStartPosition)
          / (baseInputs.rightSupport - baseInputs.leftSupport) ∧
        R2 baseInputs = baseInputs.loadMagnitude
          * (baseInputs.loadStartPosition - baseInputs.leftSupport)
          / (baseInputs.rightSupport - baseInputs.leftSupport)) ∧
      (∀ L d : ℚ, 0 < d → baseInputs.leftSupport = L / 2 - d →
        baseInputs.rightSupport = L / 2 + d → baseInputs.loadStartPosition = L / 2 →
        R1 baseInputs = baseInputs.loadMagnitude / 2 ∧
          R2 baseInputs = baseInputs.loadMagnitude / 2)) :=
  ⟨⟨rfl, rfl⟩, C2_simple_beam_point_reactions baseInputs rfl rfl⟩

/-- C3 counterexample: for the default inputs (Simple Beam, point load of
1000 N at midspan, steel density 7850) the reactions sum to 1000 N while
the applied load plus the computed self-weight is 2540.17 N, so the sum
of reactions does not equal load plus self-weight. -/
theorem C3_counterexample :
    R1 baseInputs + R2 baseInputs ≠
      totalAppliedLoad baseInputs + beamWeightN baseInputs := by
  norm_num [R1, R2, totalAppliedLoad, beamWeightN, beamVolume, baseInputs]

/-- C3 amended: for every valid pair (recognized beam type, distinct
supports when simply supported), the sum of the computed reactions equals
the total applied load alone; the self-weight never enters the reaction
computation of `calculateDiagrams`. -/
theorem C3_reactions_balance_applied_load (inp : BeamInputs)
    (hbt : inp.beamType = "Simple Beam" ∨ inp.beamType = "Cantilever Beam")
    (hs : inp.rightSupport ≠ inp.leftSupport) :
    R1 inp + R2 inp = totalAppliedLoad inp := by
  have hsub : inp.rightSupport - inp.leftSupport ≠ 0 := sub_ne_zero.mpr hs
  rcases hbt with hb | hb
  · by_cases hp : inp.loadType = "Point Load"
    · rw [show R1 inp = inp.loadMagnitude * (inp.rightSupport - inp.loadStartPosition)
          / (inp.rightSupport - inp.leftSupport) by simp [R1, hb, hp],
        show R2 inp = inp.loadMagnitude * (inp.loadStartPosition - inp.leftSupport)
          / (inp.rightSupport - inp.leftSupport) by simp [R2, hb, hp],
        show totalAppliedLoad inp = inp.loadMagnitude by simp [totalAppliedLoad, hp],
        div_add_div_same,
        show inp.loadMagnitude * (inp.rightSupport - inp.loadStartPosition)
            + inp.loadMagnitude * (inp.loadStartPosition - inp.leftSupport)
          = inp.loadMagnitude * (inp.rightSupport - inp.leftSupport) by ring,
        mul_div_cancel_right₀ _ hsub]
    · by_cases hu : inp.loadType = "Uniform Load"
      · rw [show R1 inp = inp.loadMagnitude * (inp.loadEndPosition - inp.loadStartPosition)
            * (inp.rightSupport - (inp.loadStartPosition + inp.loadEndPosition) / 2)
            / (inp.rightSupport - inp.leftSupport) by simp [R1, hb, hp, hu],
          show R2 inp = inp.loadMagnitude * (inp.loadEndPosition - inp.loadStartPosition)
            * ((inp.loadStartPosition + inp.loadEndPosition) / 2 - inp.leftSupport)
            / (inp.rightSupport - inp.leftSupport) by simp [R2, hb, hp, hu],
          show totalAppliedLoad inp
            = inp.loadMagnitude * (inp.loadEndPosition - inp.loadStartPosition) by
            simp [totalAppliedLoad, hp, hu],
          div_add_div_same,
          show inp.loadMagnitude * (inp.loadEndPosition - inp.loadStartPosition)
              * (inp.rightSupport - (inp.loadStartPosition + inp.loadEndPosition) / 2)
              + inp.loadMagnitude * (inp.loadEndPosition - inp.loadStartPosition)
              * ((inp.loadStartPosition + inp.loadEndPosition) / 2 - inp.leftSupport)
            = inp.loadMagnitude * (inp.loadEndPosition - inp.loadStartPosition)
              * (inp.rightSupport - inp.leftSupport) by ring,
          mul_div_cancel_right₀ _ hsub]
      · simp [R1, R2, totalAppliedLoad, hb, hp, hu]
  · by_cases hp : inp.loadType = "Point Load"
    · simp [R1, R2, totalAppliedLoad, hb, hp]
    · by_cases hu : inp.loadType = "Uniform Load" <;>
        simp [R1, R2, totalAppliedLoad, hb, hp, hu]

theorem C3_reactions_balance_applied_load_witness :
    ((baseInputs.beamType = "Simple Beam" ∨ baseInputs.beamType = "Cantilever Beam") ∧
      baseInputs.rightSupport ≠ baseInputs.leftSupport) ∧
    R1 baseInputs + R2 baseInputs = totalAppliedLoad baseInputs :=
  ⟨⟨Or.inl rfl, by norm_num [baseInputs]⟩,
    C3_reactions_balance_applied_load baseInputs (Or.inl rfl) (by norm_num [baseInputs])⟩

/-- C4: code bug — for a cantilever with the point load at the free end
(`loadStartPosition = beamLength = 1000`, magnitude 1000) the reported
maxBendingMoment is 0 rather than magnitude * length = 1000000: the
accumulator of line 228 is never updated, and the sampled moment series
is itself identically zero because line 394 evaluates
`-magnitude * (beamLength - loadStartPosition) = 0`. -/
theorem C4_free_end_moment_reported_zero :
    (calculateResults exC4).maxBendingMoment = 0 ∧
    exC4.loadMagnitude * exC4.beamLength = 1000000 ∧
    ∀ p ∈ bendingMomentData exC4, p.2 = 0 := by
  refine ⟨by norm_num [calculateResults, maxBendingMoment0, roundTo],
    by norm_num [exC4, baseInputs], ?_⟩
  intro p hp
  simp only [bendingMomentData, List.mem_map, List.mem_range] at hp
  obtain ⟨i, -, rfl⟩ := hp
  have hm : moment exC4 ((i : ℚ) * dx exC4) = 0 := by
    simp [moment, exC4, baseInputs]
  simp only [hm]
  norm_num [roundTo]

/-- C5 counterexample: with the default I-Beam dimensions
(bf = 100 mm, tf = 10 mm, tw = 6 mm, h = 200 mm) the moment of inertia
computed on lines 295-297 differs from the claimed formula
`2*[bf*tf^3/6 + bf*tf*((h-tf)/2)^2] + tw*(h-2tf)^3/12`: the code doubles
the parallel-axis term inside `I_flange` before doubling again for the
two flanges. -/
theorem C5_counterexample :
    (sectionProps exC5).momentOfInertia ≠
      specIBeamMomentOfInertia (exC5.flangeWidth / 1000) (exC5.flangeThickness / 1000)
        (exC5.webThickness / 1000) (exC5.height / 1000) := by
  simp only [sectionProps, specIBeamMomentOfInertia, exC5, baseInputs]
  simp
  norm_num

/-- C5 amended: for every valid I-Beam geometry the computed moment of
inertia equals `2*[bf*tf^3/6 + 2*bf*tf*((h-tf)/2)^2] + tw*(h-2tf)^3/12`
(with the doubled parallel-axis term, as on line 295), and the section
modulus is that inertia divided by h/2. -/
theorem C5_ibeam_section_formulas (inp : BeamInputs)
    (hcs : inp.beamCrossSection = "I Beam")
    (hbf : 0 < inp.flangeWidth) (htf : 0 < inp.flangeThickness)
    (htw : 0 < inp.webThickness) (hh : 0 < inp.height)
    (hweb : 0 < inp.height - 2 * inp.flangeThickness) :
    (sectionProps inp).momentOfInertia =
      2 * (inp.flangeWidth / 1000 * (inp.flangeThickness / 1000) ^ 3 / 6
        + 2 * (inp.flangeWidth / 1000) * (inp.flangeThickness / 1000)
          * ((inp.height / 1000 - inp.flangeThickness / 1000) / 2) ^ 2)
      + inp.webThickness / 1000 * (inp.height / 1000 - 2 * (inp.flangeThickness / 1000)) ^ 3 / 12
    ∧ (sectionProps inp).sectionModulus =
      (sectionProps inp).momentOfInertia / (inp.height / 1000 / 2) := by
  constructor <;> simp [sectionProps, hcs]

theorem C5_ibeam_section_formulas_witness :
    (exC5.beamCrossSection = "I Beam" ∧ 0 < exC5.flangeWidth ∧
      0 < exC5.flangeThickness ∧ 0 < exC5.webThickness ∧ 0 < exC5.height ∧
      0 < exC5.height - 2 * exC5.flangeThickness) ∧
    ((sectionProps exC5).momentOfInertia =
      2 * (exC5.flangeWidth / 1000 * (exC5.flangeThickness / 1000) ^ 3 / 6
        + 2 * (exC5.flangeWidth / 1000) * (exC5.flangeThickness / 1000)
          * ((exC5.height / 1000 - exC5.flangeThickness / 1000) / 2) ^ 2)
      + exC5.webThickness / 1000 * (exC5.height / 1000 - 2 * (exC5.flangeThickness / 1000)) ^ 3 / 12
    ∧ (sectionProps exC5).sectionModulus =
      (sectionProps exC5).momentOfInertia / (exC5.height / 1000 / 2)) :=
  ⟨⟨rfl, by norm_num [exC5, baseInputs], by norm_num [exC5, baseInputs],
      by norm_num [exC5, baseInputs], by norm_num [exC5, baseInputs],
      by norm_num [exC5, baseInputs]⟩,
    C5_ibeam_section_formulas exC5 rfl (by norm_num [exC5, baseInputs])
      (by norm_num [exC5, baseInputs]) (by norm_num [exC5, baseInputs])
      (by norm_num [exC5, baseInputs]) (by norm_num [exC5, baseInputs])⟩

/-- C6 counterexample: with the Custom material's default
`yieldStrength = 0` the stored safety factor is NaN (`0 / 0` under JS
semantics), so the computation does propagate NaN into the ResultSet
silently, and no UNDEFINED_SAFETY_FACTOR condition exists anywhere in
the code. -/
theorem C6_counterexample :
    (calculateResults exC6).safetyFactor = JSNum.nan := by
  norm_num [calculateResults, exC6, baseInputs, sectionProps, maxBendingMoment0,
    jsDivQ, jsRound]

/-- C6 amended: when maxNormalStress is 0 (which is always, given the
never-updated accumulators) the code performs the raw division
`yieldStrength / maxNormalStress` with no signalled condition: the stored
safety factor is +Infinity for a positive yield strength and NaN for a
zero yield strength. -/
theorem C6_safety_factor_raw_division (inp : BeamInputs)
    (hZ : (sectionProps inp).sectionModulus ≠ 0) :
    (0 < inp.yieldStrength → (calculateResults inp).safetyFactor = JSNum.posInf) ∧
    (inp.yieldStrength = 0 → (calculateResults inp).safetyFactor = JSNum.nan) := by
  constructor
  · intro h
    simp [calculateResults, maxBendingMoment0, jsDivQ, jsRound, h, h.ne']
  · intro h
    simp [calculateResults, maxBendingMoment0, jsDivQ, jsRound, h]

theorem C6_safety_factor_raw_division_witness :
    ((sectionProps baseInputs).sectionModulus ≠ 0 ∧ 0 < baseInputs.yieldStrength) ∧
    (calculateResults baseInputs).safetyFactor = JSNum.posInf :=
  ⟨⟨by norm_num [sectionProps, baseInputs], by norm_num [baseInputs]⟩,
    (C6_safety_factor_raw_division baseInputs
      (by norm_num [sectionProps, baseInputs])).1 (by norm_num [baseInputs])⟩

/-- Helper: the `i`-th entry of the unrounded position list. -/
theorem positionsRaw_getElem (inp : BeamInputs) (i : ℕ) (hi : i < 100) :
    (positionsRaw inp)[i]? = some ((i : ℚ) * dx inp) := by
  rw [positionsRaw, List.getElem?_map, List.getElem?_range hi, Option.map_some']

/-- Helper: the `i`-th sample of the shear series. -/
theorem shearForceData_getElem (inp : BeamInputs) (i : ℕ) (hi : i < 100) :
    (shearForceData inp)[i]? =
      some (roundTo 2 ((i : ℚ) * dx inp), roundTo 2 (shear inp ((i : ℚ) * dx inp))) := by
  rw [shearForceData, List.getElem?_map, List.getElem?_range hi, Option.map_some']

/-- C7 counterexample: for the positive beam length 0.1 mm the stored
sample positions are `Number((i * dx).toFixed(2))`, and the first two
both round to 0, so the stored positions are not strictly increasing. -/
theorem C7_counterexample :
    0 < exC7.beamLength ∧
    ((shearForceData exC7).map Prod.fst)[0]? = some 0 ∧
    ((shearForceData exC7).map Prod.fst)[1]? = some 0 := by
  refine ⟨by norm_num [exC7, baseInputs], ?_, ?_⟩
  · rw [List.getElem?_map, shearForceData_getElem exC7 0 (by norm_num), Option.map_some']
    norm_num [exC7, baseInputs, dx, roundTo]
  · rw [List.getElem?_map, shearForceData_getElem exC7 1 (by norm_num), Option.map_some']
    norm_num [exC7, baseInputs, dx, roundTo]

/-- C7 amended: for every positive beam length both series have exactly
100 samples; the unrounded positions `i * dx` are strictly increasing
from 0 (index 0) to the beam length (index 99); the stored positions are
these values rounded to two decimals, which is why strict increase (and
last = length) can fail after storage for small lengths. -/
theorem C7_series_shape (inp : BeamInputs) (hL : 0 < inp.beamLength) :
    (shearForceData inp).length = 100 ∧
    (bendingMomentData inp).length = 100 ∧
    List.Chain' (· < ·) (positionsRaw inp) ∧
    (positionsRaw inp)[0]? = some 0 ∧
    (positionsRaw inp)[99]? = some inp.beamLength ∧
    (shearForceData inp).map Prod.fst = (positionsRaw inp).map (roundTo 2) ∧
    (bendingMomentData inp).map Prod.fst = (positionsRaw inp).map (roundTo 2) := by
  have hdx : 0 < dx inp := by
    have h99 : (0 : ℚ) < 99 := by norm_num
    exact div_pos hL h99
  refine ⟨?_, ?_, ?_, ?_, ?_, ?_, ?_⟩
  · simp only [shearForceData, List.length_map, List.length_range]
  · simp only [bendingMomentData, List.length_map, List.length_range]
  · rw [positionsRaw, List.chain'_map, show (100 : ℕ) = Nat.succ 99 from rfl,
      List.chain'_range_succ]
    intro m hm
    have hcast : ((m : ℚ)) < ((Nat.succ m : ℕ) : ℚ) := by exact_mod_cast Nat.lt_succ_self m
    exact mul_lt_mul_of_pos_right hcast hdx
  · rw [positionsRaw_getElem inp 0 (by norm_num)]
    norm_num
  · rw [positionsRaw_getElem inp 99 (by norm_num)]
    have h99 : ((99 : ℕ) : ℚ) * dx inp = inp.beamLength := by
      rw [dx]
      field_simp
    rw [h99]
  · simp only [shearForceData, positionsRaw, List.map_map]
    rfl
  · simp only [bendingMomentData, positionsRaw, List.map_map]
    rfl

theorem C7_series_shape_witness :
    0 < baseInputs.beamLength ∧
    ((shearForceData baseInputs).length = 100 ∧
      (bendingMomentData baseInputs).length = 100 ∧
      List.Chain' (· < ·) (positionsRaw baseInputs) ∧
      (positionsRaw baseInputs)[0]? = some 0 ∧
      (positionsRaw baseInputs)[99]? = some baseInputs.beamLength ∧
      (shearForceData baseInputs).map Prod.fst = (positionsRaw baseInputs).map (roundTo 2) ∧
      (bendingMomentData baseInputs).map Prod.fst = (positionsRaw baseInputs).map (roundTo 2)) :=
  ⟨by norm_num [baseInputs], C7_series_shape baseInputs (by norm_num [baseInputs])⟩

/-- C8 counterexample: with coincident supports at 500 mm and the point
load at 500 mm the code does not reject the configuration; lines 350-351
divide by zero and both reactions come out NaN (`0 / 0`). -/
theorem C8_counterexample :
    simpleBeamPointR1JS exC8 = JSNum.nan ∧ simpleBeamPointR2JS exC8 = JSNum.nan := by
  constructor <;>
    simp [simpleBeamPointR1JS, simpleBeamPointR2JS, jsDivQ, exC8, baseInputs]

/-- C8 amended: a simply supported configuration with
`rightSupport = leftSupport` is not rejected; the reaction formulas of
lines 350-351 divide by zero under JS semantics, yielding NaN reactions
when the point load sits at the coincident support position and a signed
infinity when the numerator is nonzero. -/
theorem C8_coincident_supports_not_rejected (inp : BeamInputs)
    (hr : inp.rightSupport = inp.leftSupport) :
    (inp.loadStartPosition = inp.leftSupport →
      simpleBeamPointR1JS inp = JSNum.nan ∧ simpleBeamPointR2JS inp = JSNum.nan) ∧
    (0 < inp.loadMagnitude * (inp.rightSupport - inp.loadStartPosition) →
      simpleBeamPointR1JS inp = JSNum.posInf) := by
  constructor
  · intro hp
    constructor <;> simp [simpleBeamPointR1JS, simpleBeamPointR2JS, jsDivQ, hr, hp]
  · intro hpos
    rw [hr] at hpos
    unfold simpleBeamPointR1JS jsDivQ
    rw [hr, sub_self, if_pos rfl, if_neg hpos.ne', if_pos hpos]

theorem C8_coincident_supports_not_rejected_witness :
    exC8.rightSupport = exC8.leftSupport ∧
    ((exC8.loadStartPosition = exC8.leftSupport →
      simpleBeamPointR1JS exC8 = JSNum.nan ∧ simpleBeamPointR2JS exC8 = JSNum.nan) ∧
    (0 < exC8.loadMagnitude * (exC8.rightSupport - exC8.loadStartPosition) →
      simpleBeamPointR1JS exC8 = JSNum.posInf)) :=
  ⟨rfl, C8_coincident_supports_not_rejected exC8 rfl⟩

/-- C9: any cross-section string other than the four recognized variants
takes the `default` branches of the two switches (lines 258-259 and
312-315), which repeat the Rectangular formulas for the beam volume and
the section properties; nothing rejects the unrecognized variant. -/
theorem C9_unrecognized_shape_falls_back_to_rectangular (inp : BeamInputs)
    (h1 : inp.beamCrossSection ≠ "Rectangular")
    (h2 : inp.beamCrossSection ≠ "I Beam")
    (h3 : inp.beamCrossSection ≠ "C Channel")
    (h4 : inp.beamCrossSection ≠ "Circular") :
    beamVolume inp = beamVolume { inp with beamCrossSection := "Rectangular" } ∧
    sectionProps inp = sectionProps { inp with beamCrossSection := "Rectangular" } := by
  constructor <;> simp [beamVolume, sectionProps, h1, h2, h3, h4]

theorem C9_unrecognized_shape_falls_back_to_rectangular_witness :
    (exC9.beamCrossSection ≠ "Rectangular" ∧ exC9.beamCrossSection ≠ "I Beam" ∧
      exC9.beamCrossSection ≠ "C Channel" ∧ exC9.beamCrossSection ≠ "Circular") ∧
    (beamVolume exC9 = beamVolume { exC9 with beamCrossSection := "Rectangular" } ∧
      sectionProps exC9 = sectionProps { exC9 with beamCrossSection := "Rectangular" }) :=
  ⟨⟨by decide, by decide, by decide, by decide⟩,
    C9_unrecognized_shape_falls_back_to_rectangular exC9 (by decide) (by decide)
      (by decide) (by decide)⟩

/-- C10: with zero density and a load carrying zero total force (zero
magnitude, or a uniform load whose end equals its start) both the moment
and force totals of lines 265-276 are 0, the centre of gravity is the JS
division `0 / 0`, and the ResultSet silently stores NaN. -/
theorem C10_center_of_gravity_nan (inp : BeamInputs)
    (hd : inp.beamDensity = 0)
    (hl : inp.loadMagnitude = 0 ∨
      (inp.loadType = "Uniform Load" ∧ inp.loadEndPosition = inp.loadStartPosition)) :
    (calculateResults inp).centerOfGravity = JSNum.nan := by
  have hw : beamWeightN inp = 0 := by simp [beamWeightN, hd]
  have hf : totalForce inp = 0 := by
    rcases hl with h | ⟨hu, he⟩
    · unfold totalForce
      split_ifs <;> simp [hw, h]
    · simp [totalForce, hw, hu, he]
  have hm : totalMoment inp = 0 := by
    rcases hl with h | ⟨hu, he⟩
    · unfold totalMoment
      split_ifs <;> simp [hw, h]
    · simp [totalMoment, hw, hu, he]
  simp [calculateResults, hf, hm, jsDivQ, jsRound]

theorem C10_center_of_gravity_nan_witness :
    (exC10.beamDensity = 0 ∧
      (exC10.loadMagnitude = 0 ∨
        (exC10.loadType = "Uniform Load" ∧
          exC10.loadEndPosition = exC10.loadStartPosition))) ∧
    (calculateResults exC10).centerOfGravity = JSNum.nan :=
  ⟨⟨rfl, Or.inl rfl⟩, C10_center_of_gravity_nan exC10 rfl (Or.inl rfl)⟩

end BeamCalc
